import Mathlib

/-!
Shallow embedding of the go-cfgstore configuration-store library
(github.com/mikeschinkel/go-cfgstore): directory resolution
(`ConfigDir`, `DirsProvider.CLIConfigDirType`), the per-store
load/create machinery (`loadConfigIfExists`, `ensureConfig`,
`createConfig`), the multi-store gather phase of `LoadRootConfig`,
and the precedence fold `mergeRootConfigs`.

Modelling conventions:
- Go machine state that matters to the verified claims (a store's file
  content, a `configStore`'s memoized directory) is passed explicitly.
- Fallible Go functions returning `(T, error)` become `Except Err T`.
- The caller-supplied configuration type `RC` and its JSON encoding are
  type parameters; the caller-supplied operations (`Normalize`, JSON
  marshal/unmarshal, `dtx.IsZero`) are bundled in `RCOps`.
- The caller-supplied `Merge` method follows the contract the library's
  README documents ("Return a new merged config, don't mutate the
  original", with the receiver as first operand): it is a pure function
  `RC → RC → RC`, and the entries of the gathered config map are never
  mutated by it.
- File writes performed by `SaveJSON` are modelled as succeeding
  (replacing the store's file content); OS-level write failures are out
  of modelled scope.
-/

namespace CfgStore

/-- Directory kinds, from `dir_type.go`: `UnspecifiedConfigDir(Type)`,
`AppConfigDir(Type)`, `CLIConfigDir(Type)`, `ProjectConfigDir(Type)`.
`unspecified` is the Go zero value of the `DirType` int. -/
inductive DirType where
  | unspecified
  | appConfig
  | cliConfig
  | projectConfig
deriving DecidableEq, Repr

/-- Error values, mirroring the sentinel errors of `errors.go` /
`config_stores.go` and the wrapping performed with `NewErr`/`WithErr`.
`external` stands for an opaque underlying error (OS lookup failure,
JSON-library failure, caller `Normalize` failure). -/
inductive Err where
  | external (tag : String)
  | fileDoesNotExist
  | failedToReadFile (cause : Err)
  | failedToReadConfigFile (cause : Err)
  | failedToUnmarshalConfigFile (cause : Err)
  | failedToLoadJSON (cause : Err)
  | withFileContext (file : String) (cause : Err)
  | failedToEnsureConfig (file : String) (cause : Err)
  | combined (errs : List Err)
  | notValidConfigDirsAvailable
  | dirTypeNotAssignedAfterMerge
  | failedGettingUserConfigDir (cause : Err)
  | failedGettingUserHomeDir (cause : Err)
  | failedGettingWorkingDir (cause : Err)
  | configDirTypeNotSet

/-- An error is "deserialization-failed class" when some wrapping layer
is `ErrFailedToUnmarshalConfigFile`, mirroring Go `errors.Is` checks
through the wrap chain built by `LoadJSON`, `loadConfigIfExists` and
`LoadRootConfig`. -/
def Err.isDeserializationFailure : Err → Bool
  | .failedToUnmarshalConfigFile _ => true
  | .failedToReadFile e => e.isDeserializationFailure
  | .failedToReadConfigFile e => e.isDeserializationFailure
  | .failedToLoadJSON e => e.isDeserializationFailure
  | .withFileContext _ e => e.isDeserializationFailure
  | .failedToEnsureConfig _ e => e.isDeserializationFailure
  | _ => false

/-- `dt.DirPathJoin` / `dt.FilepathJoin`, for a non-empty relative
segment joined below a directory. -/
def dirPathJoin (dir : String) (seg : String) : String :=
  dir ++ "/" ++ seg

/-- `DotConfigPathSegment` from `config_store.go`. -/
def DotConfigPathSegment : String := ".config"

/-- The value of `runtime.GOOS`, as far as the library inspects it
(`config_store.go` only distinguishes `"linux"` from everything else). -/
inductive Goos where
  | linux
  | darwin
  | windows
  | other
deriving DecidableEq, Repr

/-- `DirsProvider` from the source: a bundle of swappable
directory-lookup functions. Each Go field `func() (dt.DirPath, error)`
is modelled by its (pure) result. -/
structure DirsProvider where
  UserHomeDirFunc : Except Err String
  GetwdFunc : Except Err String
  ProjectDirFunc : Except Err String
  UserConfigDirFunc : Except Err String
  CLIConfigDirFunc : Except Err String
  UserCacheDirFunc : Except Err String

/-- The ambient OS directory lookups (`dt.UserHomeDir`,
`dt.UserConfigDir`, `dt.Getwd`, `dt.UserCacheDir`) that
`DefaultDirsProvider` wires in. -/
structure OSEnv where
  userHomeDir : Except Err String
  userConfigDir : Except Err String
  getwd : Except Err String
  userCacheDir : Except Err String

/-- `DirsProvider.CLIConfigDirType` from `config_store.go` lines
142-162, translated exactly: on `linux` it reads
`UserConfigDirFunc`, otherwise `UserHomeDirFunc`; the successful result
of the `switch` then flows into the unconditional
`dir = dt.DirPathJoin(dir, DotConfigPathSegment)` on line 159 — on both
platforms, since the `linux` arm's success path has no `goto end`. -/
def CLIConfigDirType (goos : Goos) (dp : DirsProvider) : Except Err String :=
  match goos with
  | .linux =>
    match dp.UserConfigDirFunc with
    | .error e => .error (.failedGettingUserConfigDir e)
    | .ok dir => .ok (dirPathJoin dir DotConfigPathSegment)
  | _ =>
    match dp.UserHomeDirFunc with
    | .error e => .error (.failedGettingUserHomeDir e)
    | .ok dir => .ok (dirPathJoin dir DotConfigPathSegment)

/-- `DefaultDirsProvider` from `config_store.go` lines 114-125: wires
the OS lookups and sets `CLIConfigDirFunc` to the provider's own
`CLIConfigDirType` method (which reads only the user-config and
user-home fields, set just before). -/
def DefaultDirsProvider (goos : Goos) (os : OSEnv) : DirsProvider :=
  let base : DirsProvider :=
    { UserHomeDirFunc := os.userHomeDir
      UserConfigDirFunc := os.userConfigDir
      GetwdFunc := os.getwd
      ProjectDirFunc := os.getwd
      UserCacheDirFunc := os.userCacheDir
      CLIConfigDirFunc := .error (.external "unassigned") }
  { base with CLIConfigDirFunc := CLIConfigDirType goos base }

/-- The package-level `ConfigDir` function (resolver), translated from
the source: dispatch on the directory kind, look up the base directory
through the provider (defaulted when `none`), and join the slug
(prefixed with `"."` for the project kind). The Go `default:` arm for
out-of-range integer kinds is unrepresentable in the closed `DirType`
model. -/
def ConfigDir (goos : Goos) (os : OSEnv) (dirType : DirType)
    (configSlug : String) (dp₀ : Option DirsProvider) : Except Err String :=
  let dp := match dp₀ with
    | none => DefaultDirsProvider goos os
    | some p => p
  match dirType with
  | .cliConfig =>
    match dp.CLIConfigDirFunc with
    | .error e => .error e
    | .ok dir => .ok (dirPathJoin dir configSlug)
  | .projectConfig =>
    match dp.ProjectDirFunc with
    | .error e => .error (.failedGettingWorkingDir e)
    | .ok dir => .ok (dirPathJoin dir ("." ++ configSlug))
  | .appConfig =>
    match dp.UserConfigDirFunc with
    | .error e => .error (.failedGettingUserConfigDir e)
    | .ok dir => .ok (dirPathJoin dir configSlug)
  | .unspecified => .error .configDirTypeNotSet

/-- The `configStore` struct from `config_store.go`: an empty
`configDir` string means "not yet resolved" (the Go code tests
`cs.configDir != ""`); `fs` is the cached `fs.FS` view, modelled by the
directory it is rooted at (`none` = not yet bound). -/
structure configStore where
  configSlug : String
  configDir : String
  relFilepath : String
  dirType : DirType
  dirsProvider : Option DirsProvider
  fs : Option String

/-- Arguments of `NewConfigStore`. -/
structure ConfigStoreArgs where
  ConfigSlug : String
  RelFilepath : String
  DirsProvider : Option DirsProvider

/-- `NewConfigStore` from `config_store.go` lines 126-139. The Go
function panics when the kind is `Unspecified`; panic is modelled as
`none`. A missing provider is replaced by `DefaultDirsProvider()`. -/
def NewConfigStore (goos : Goos) (os : OSEnv) (dirType : DirType)
    (args : ConfigStoreArgs) : Option configStore :=
  if dirType = .unspecified then none
  else
    let dp := match args.DirsProvider with
      | none => DefaultDirsProvider goos os
      | some p => p
    some { configSlug := args.ConfigSlug
           configDir := ""
           relFilepath := args.RelFilepath
           dirType := dirType
           dirsProvider := some dp
           fs := none }

/-- The `configStore.ConfigDir` method (`config_store.go` lines
164-171): return the memoized directory when non-empty, otherwise
resolve through the package-level `ConfigDir` and memoize. Returns the
updated store alongside the result. -/
def configStore.ConfigDirM (goos : Goos) (os : OSEnv) (cs : configStore) :
    configStore × Except Err String :=
  if cs.configDir = "" then
    match ConfigDir goos os cs.dirType cs.configSlug cs.dirsProvider with
    | .ok d => ({ cs with configDir := d }, .ok d)
    | .error e => (cs, .error e)
  else (cs, .ok cs.configDir)

/-- `configStore.SetConfigDir` (`config_store.go` lines 302-306):
overwrite the memoized directory and rebind the filesystem view. -/
def configStore.SetConfigDir (cs : configStore) (dir : String) : configStore :=
  { cs with configDir := dir, fs := some dir }

/-- `configStore.WithDirType` (`config_store.go` lines 323-327):
shallow copy with only the `dirType` field replaced. -/
def configStore.WithDirType (cs : configStore) (k : DirType) : configStore :=
  { cs with dirType := k }

/-- `NormalizeArgs` from `normalize_args.go`: the context handed to the
caller's `Normalize` (the opaque `Options` value is passed through
unchanged by the library and is omitted). -/
structure NormalizeArgs where
  DirType : DirType
  SourceFile : String
deriving DecidableEq, Repr

/-- The caller-supplied configuration type's operations, as the library
consumes them: the fresh value `PRC(new(RC))`, `dtx.IsZero`, the JSON
unmarshal of file content into a fresh value (`LoadJSON`), the JSON
marshal (`SaveJSON`), and the caller's `Normalize`. Go's in-place
mutation of `rc` becomes value passing. -/
structure RCOps (RC C : Type) where
  zero : RC
  isZero : RC → Bool
  deserialize : C → Except Err RC
  serialize : RC → Except Err C
  normalize : RC → NormalizeArgs → Except Err RC

/-- One store's location and file state during a multi-store load: the
resolved filepath (`GetFilepath`, assumed resolvable) and the file's
content, `none` when the file does not exist (`Exists() = false`). -/
structure Store (C : Type) where
  filepath : String
  file : Option C

/-- `configStore.LoadJSON` composed with `configStore.Load`
(`config_store.go` lines 246-288), with the wrap chain:
missing file ↦ `ErrFileDoesNotExist` ↦ `ErrFailedToReadFile` ↦
`ErrFailedToReadConfigFile` ↦ `ErrFailedToLoadJSON`; unmarshal failure
↦ `ErrFailedToUnmarshalConfigFile` ↦ `ErrFailedToLoadJSON`. -/
def loadJSON {RC C : Type} (ops : RCOps RC C) (st : Store C) : Except Err RC :=
  match st.file with
  | none =>
    .error (.failedToLoadJSON (.failedToReadConfigFile
      (.failedToReadFile .fileDoesNotExist)))
  | some c =>
    match ops.deserialize c with
    | .error e => .error (.failedToLoadJSON (.failedToUnmarshalConfigFile e))
    | .ok rc => .ok rc

/-- `configStore.loadConfigIfExists` (`config_store.go` lines 388-417):
if the file does not exist, return the caller's `rc` untouched with no
error; otherwise load, deserialize and normalize. An error is wrapped
with the `config_file` context — which is the empty string when
`LoadJSON` failed, because `fp` is only assigned after a successful
load. -/
def loadConfigIfExists {RC C : Type} (ops : RCOps RC C) (st : Store C)
    (rc : RC) (dirType : DirType) : Except Err RC :=
  match st.file with
  | none => .ok rc
  | some _ =>
    match loadJSON ops st with
    | .error e => .error (.withFileContext "" e)
    | .ok rc₁ =>
      match ops.normalize rc₁ ⟨dirType, st.filepath⟩ with
      | .error e => .error (.withFileContext st.filepath e)
      | .ok rc₂ => .ok rc₂

/-- `configStore.createConfig` (`config_store.go` lines 354-375):
normalize the passed value, marshal it, and persist it as the store's
new file content. Returns the normalized value and the updated store
(the write itself is modelled as succeeding). -/
def createConfig {RC C : Type} (ops : RCOps RC C) (st : Store C)
    (rc : RC) (dirType : DirType) : Except Err (RC × Store C) :=
  match ops.normalize rc ⟨dirType, st.filepath⟩ with
  | .error e => .error e
  | .ok rc₁ =>
    match ops.serialize rc₁ with
    | .error e => .error e
    | .ok c => .ok (rc₁, { st with file := some c })

/-- `configStore.ensureConfig` (`config_store.go` lines 337-352): load
if the file exists; when the resulting value is (still) the zero value
— file missing, or content deserializing/normalizing to zero — fall
through to `createConfig`. -/
def ensureConfig {RC C : Type} (ops : RCOps RC C) (st : Store C)
    (rc : RC) (dirType : DirType) : Except Err (RC × Store C) :=
  match loadConfigIfExists ops st rc dirType with
  | .error e => .error e
  | .ok rc₁ =>
    if ops.isZero rc₁ then createConfig ops st rc₁ dirType
    else .ok (rc₁, st)

/-- The loop body of `LoadRootConfig` (`config_stores.go` lines
97-123) for one store: project-kind stores use `loadConfigIfExists`
and record `none` (absent) when the result is zero; all other kinds
use `ensureConfig`. A per-store error is wrapped as
`NewErr(ErrFailedToEnsureConfig, "filepath", fp, err)`. The result
pairs the contribution outcome with the store's (possibly written)
state. -/
def gatherOne {RC C : Type} (ops : RCOps RC C) (dirType : DirType)
    (st : Store C) : Except Err (Option RC) × Store C :=
  match dirType with
  | .projectConfig =>
    match loadConfigIfExists ops st ops.zero .projectConfig with
    | .error e => (.error (.failedToEnsureConfig st.filepath e), st)
    | .ok rc₁ =>
      if ops.isZero rc₁ then (.ok none, st)
      else (.ok (some rc₁), st)
  | d =>
    match ensureConfig ops st ops.zero d with
    | .error e => (.error (.failedToEnsureConfig st.filepath e), st)
    | .ok (rc₁, st₁) => (.ok (some rc₁), st₁)

/-- The gather phase of `LoadRootConfig`: iterate over the store map
(association list in Go's map-iteration order), collecting per-store
errors in iteration order, the contribution map `rcMap`, and the final
store states. An erroring store contributes nothing to `rcMap`
(`continue`), and iteration always proceeds to the remaining stores. -/
def gather {RC C : Type} (ops : RCOps RC C) :
    List (DirType × Store C) →
    List Err × (DirType → Option RC) × List (DirType × Store C)
  | [] => ([], fun _ => none, [])
  | (d, st) :: rest =>
    let one := gatherOne ops d st
    let acc := gather ops rest
    match one.1 with
    | .error e => (e :: acc.1, acc.2.1, (d, one.2) :: acc.2.2)
    | .ok contrib =>
      (acc.1, fun t => if t = d then contrib else acc.2.1 t,
       (d, one.2) :: acc.2.2)

/-- `dt.CombineErrs`, modelled from the spec: `nil` for an empty
collection, otherwise one aggregate error carrying every collected
error ("combine them into one aggregate error"). The function itself
lives in the external go-dt dependency. -/
def combineErrs (errs : List Err) : Option Err :=
  match errs with
  | [] => none
  | _ => some (.combined errs)

/-- Scan of `args.DirTypes` for the first contributing entry
(`config_stores.go` lines 154-164): returns that value and the list
remainder after it (the Go code records `start = i + 1`). -/
def findFirstContrib {RC : Type} (m : DirType → Option RC) :
    List DirType → Option (RC × List DirType)
  | [] => none
  | t :: rest =>
    match m t with
    | some v => some (v, rest)
    | none => findFirstContrib m rest

/-- The merge loop of `mergeRootConfigs` (`config_stores.go` lines
176-184): walk the remaining kind list, and for each contributing kind
compute `rc = rcMap[typ].Merge(rc)` and remember the kind in
`dirType`. Per the Merge contract documented in the repository's
README ("Return a new merged config, don't mutate the original"), the
map entries are left untouched; only the accumulator `rc` and the
last-merged kind change. -/
def mergeLoop {RC : Type} (merge : RC → RC → RC) (m : DirType → Option RC) :
    List DirType → RC → DirType → RC × DirType
  | [], rc, last => (rc, last)
  | t :: rest, rc, last =>
    match m t with
    | none => mergeLoop merge m rest rc last
    | some v => mergeLoop merge m rest (merge v rc) t

/-- `mergeRootConfigs` (`config_stores.go` lines 139-199), translated
clause by clause: count the contributing kinds; find the first
contributing value (error `ErrNotValidConfigDirsAvailable` when there
is none); short-circuit when at most one contributed; otherwise run the
merge loop, fail with `ErrDirTypeNotAssignAfterMerge` when the
last-merged kind is still the `Unspecified` zero value, and finally
return `prc = rcMap[dirType]` — the stored entry for the last merged
kind, not the loop's accumulator `rc`. The `Option RC` in the result
mirrors the nilability of the returned `PRC` pointer. -/
def mergeRootConfigs {RC : Type} (merge : RC → RC → RC)
    (rcMap : DirType → Option RC) (dirTypes : List DirType) :
    Except Err (Option RC) :=
  let cnt := (dirTypes.filter fun t => (rcMap t).isSome).length
  match findFirstContrib rcMap dirTypes with
  | none => .error .notValidConfigDirsAvailable
  | some (v, rest) =>
    if cnt ≤ 1 then .ok (some v)
    else
      let out := mergeLoop merge rcMap rest v .unspecified
      if out.2 = .unspecified then .error .dirTypeNotAssignedAfterMerge
      else .ok (rcMap out.2)

/-- `LoadRootConfig` (`config_stores.go` lines 85-133), over the
modelled store states: default the kind list, gather every store's
contribution, return the combined aggregate error when any store
failed, and otherwise hand the contribution map to `mergeRootConfigs`.
The returned pair carries the final store states (files created during
the gather phase). -/
def LoadRootConfig {RC C : Type} (ops : RCOps RC C) (merge : RC → RC → RC)
    (stores : List (DirType × Store C)) (dirTypes₀ : List DirType) :
    Except Err (Option RC) × List (DirType × Store C) :=
  let dirTypes := if dirTypes₀ = [] then [DirType.cliConfig, DirType.projectConfig]
    else dirTypes₀
  let g := gather ops stores
  match combineErrs g.1 with
  | some e => (.error e, g.2.2)
  | none => (mergeRootConfigs merge g.2.1 dirTypes, g.2.2)

/-- A concrete caller-side configuration value, shaped after the
spec's Theme/Debug merge example; used to instantiate the generic
machinery on closed inputs. -/
structure DemoConfig where
  theme : String
  debug : Bool
deriving DecidableEq, Repr

/-- The zero value of `DemoConfig` (fresh `new(RC)`). -/
def demoZero : DemoConfig := { theme := "", debug := false }

/-- `dtx.IsZero` for `DemoConfig`: true exactly on the zero value. -/
def demoIsZero (c : DemoConfig) : Bool := c = demoZero

/-- A toy deserializer standing for `jsonv2.Unmarshal` on `DemoConfig`:
a few well-formed contents, everything else a parse error. -/
def demoDeserialize (s : String) : Except Err DemoConfig :=
  if s = "empty" then .ok demoZero
  else if s = "light" then .ok { theme := "light", debug := false }
  else if s = "debug" then .ok { theme := "", debug := true }
  else .error (.external "invalid JSON")

/-- A toy serializer standing for `jsonv2.Marshal` on `DemoConfig`. -/
def demoSerialize (c : DemoConfig) : Except Err String :=
  .ok (c.theme ++ "|" ++ (if c.debug then "true" else "false"))

/-- A pass-through `Normalize` for `DemoConfig`. -/
def demoNormalize (c : DemoConfig) (_ : NormalizeArgs) : Except Err DemoConfig :=
  .ok c

/-- The bundled operations for `DemoConfig`. -/
def demoOps : RCOps DemoConfig String :=
  { zero := demoZero
    isZero := demoIsZero
    deserialize := demoDeserialize
    serialize := demoSerialize
    normalize := demoNormalize }

/-- The spec's example merge rule for `DemoConfig`, written in the
README's documented style (receiver first, non-empty/non-zero receiver
field wins, else inherit; returns a new value). -/
def demoMerge (recv other : DemoConfig) : DemoConfig :=
  { theme := if recv.theme = "" then other.theme else recv.theme
    debug := if recv.debug = false then other.debug else recv.debug }

/-- A concrete OS environment for closed evaluations. -/
def demoOS : OSEnv :=
  { userHomeDir := .ok "/home/u"
    userConfigDir := .ok "/home/u/.config"
    getwd := .ok "/proj"
    userCacheDir := .ok "/home/u/.cache" }

/-- The contribution map of the spec's Theme/Debug example: the
CLIConfig store contributed `{Theme: "light", Debug: false}`, the
ProjectConfig store `{Theme: "", Debug: true}`. -/
def demoMap : DirType → Option DemoConfig
  | .cliConfig => some { theme := "light", debug := false }
  | .projectConfig => some { theme := "", debug := true }
  | _ => none

/-- A concrete `configStore` whose provider resolves the CLI config
directory to `/resolved`. -/
def demoStore : configStore :=
  { configSlug := "acme"
    configDir := ""
    relFilepath := "config.json"
    dirType := .cliConfig
    dirsProvider := some
      { UserHomeDirFunc := .ok "/home/u"
        GetwdFunc := .ok "/proj"
        ProjectDirFunc := .ok "/proj"
        UserConfigDirFunc := .ok "/home/u/.config"
        CLIConfigDirFunc := .ok "/resolved"
        UserCacheDirFunc := .ok "/home/u/.cache" }
    fs := none }

/-- Concrete stores for a partial-failure load: the CLIConfig file
holds malformed content, the ProjectConfig file holds well-formed
content. -/
def demoFailStores : List (DirType × Store String) :=
  [(.cliConfig, { filepath := "/cli/config.json", file := some "garbage" }),
   (.projectConfig, { filepath := "/proj/config.json", file := some "debug" })]

/-- `demoIsZero` recognizes exactly the zero value (the defining
property of `dtx.IsZero`). -/
theorem demoIsZero_law : ∀ x : DemoConfig, demoIsZero x = true → x = demoZero :=
  fun _ h => of_decide_eq_true h

/-- The per-store errors of the gather phase, in iteration order: one
entry per store whose processing failed. -/
def gatherErrs {RC C : Type} (ops : RCOps RC C)
    (stores : List (DirType × Store C)) : List Err :=
  stores.filterMap fun p =>
    match (gatherOne ops p.1 p.2).1 with
    | .error e => some e
    | .ok _ => none

theorem length_filter_isSome {RC : Type} (m : DirType → Option RC)
    (l : List DirType) :
    (l.filter fun t => (m t).isSome).length = (l.filterMap m).length := by
  induction l with
  | nil => rfl
  | cons t l ih => cases h : m t <;> simp [List.filter_cons, List.filterMap_cons, h, ih]

theorem findFirstContrib_none_of {RC : Type} (m : DirType → Option RC)
    (h : ∀ t, m t = none) : ∀ l, findFirstContrib m l = none := by
  intro l
  induction l with
  | nil => rfl
  | cons t l ih => simp [findFirstContrib, h t, ih]

theorem findFirstContrib_of_filterMap {RC : Type} (m : DirType → Option RC) :
    ∀ (l : List DirType) (v : RC) (vs : List RC),
      l.filterMap m = v :: vs →
      ∃ rest, findFirstContrib m l = some (v, rest) ∧ rest.filterMap m = vs := by
  intro l
  induction l with
  | nil => intro v vs h; simp at h
  | cons t l ih =>
    intro v vs h
    cases hm : m t with
    | none =>
      rw [List.filterMap_cons, hm] at h
      obtain ⟨rest, h₁, h₂⟩ := ih v vs h
      exact ⟨rest, by simp [findFirstContrib, hm, h₁], h₂⟩
    | some w =>
      rw [List.filterMap_cons, hm] at h
      obtain ⟨rfl, rfl⟩ : w = v ∧ l.filterMap m = vs := by
        constructor <;> simp_all
      exact ⟨l, by simp [findFirstContrib, hm], rfl⟩

theorem gather_absent_components {RC C : Type} (ops : RCOps RC C) :
    ∀ stores : List (DirType × Store C),
      (∀ p ∈ stores, (gatherOne ops p.1 p.2).1 = .ok (none : Option RC)) →
      (gather ops stores).1 = [] ∧ ∀ t, (gather ops stores).2.1 t = none := by
  intro stores
  induction stores with
  | nil => intro _; exact ⟨rfl, fun _ => rfl⟩
  | cons p rest ih =>
    intro h
    obtain ⟨d, st⟩ := p
    have h₁ : (gatherOne ops d st).1 = .ok none := h (d, st) (by simp)
    obtain ⟨ih₁, ih₂⟩ := ih fun q hq => h q (by simp [hq])
    refine ⟨by simp [gather, h₁, ih₁], fun t => ?_⟩
    simp only [gather, h₁]
    by_cases ht : t = d <;> simp [ht, ih₂ t]

theorem gather_components {RC C : Type} (ops : RCOps RC C) :
    ∀ stores : List (DirType × Store C),
      (gather ops stores).1 = gatherErrs ops stores ∧
      (gather ops stores).2.2
        = stores.map fun p => (p.1, (gatherOne ops p.1 p.2).2) := by
  intro stores
  induction stores with
  | nil => exact ⟨rfl, rfl⟩
  | cons p rest ih =>
    obtain ⟨d, st⟩ := p
    obtain ⟨ih₁, ih₂⟩ := ih
    cases h : (gatherOne ops d st).1 <;>
      simp [gather, gatherErrs, List.filterMap_cons, h, ih₁, ih₂]

/-- C4: evaluating the resolver at the failing input. On Linux with
the OS user-config directory `/home/u/.config` and slug `myapp`, the
code yields `/home/u/.config/.config/myapp` — the literal `.config`
segment of `config_store.go` line 159 is joined even on Linux, because
the `linux` arm's success path has no `goto end` — whereas the claim
(and the function's own doc comment) call for the user-config
directory with only the slug joined, `/home/u/.config/myapp`. On other
platforms the code matches the claim (`<home>/.config/<slug>`). -/
theorem cliConfigDir_linux_appends_dotconfig :
    ConfigDir .linux demoOS .cliConfig "myapp" none
        = .ok "/home/u/.config/.config/myapp"
    ∧ ConfigDir .darwin demoOS .cliConfig "myapp" none
        = .ok "/home/u/.config/myapp"
    ∧ ConfigDir .windows demoOS .cliConfig "myapp" none
        = .ok "/home/u/.config/myapp"
    ∧ ("/home/u/.config/.config/myapp" : String) ≠ "/home/u/.config/myapp" :=
  ⟨rfl, rfl, rfl, by decide⟩

/-- C7 (counterexample): overriding the directory with the empty path
does not stick. `ConfigDir` treats an empty memoized directory as
"unresolved", so after `SetConfigDir("")` it re-resolves through the
provider and returns `/resolved/acme`, not `""`. -/
theorem setConfigDir_empty_not_returned :
    ((demoStore.SetConfigDir "").ConfigDirM .darwin demoOS).2
        = .ok "/resolved/acme"
    ∧ ("/resolved/acme" : String) ≠ "" :=
  ⟨rfl, by decide⟩

/-- C7 (amended): for every NON-EMPTY path `p`, `SetConfigDir p`
followed by `ConfigDir()` returns exactly `p` and leaves the store
unchanged — for every store, hence regardless of what the provider
would compute and without consulting the resolver — and the filesystem
view is rebound to `p`. -/
theorem setConfigDir_then_configDir (goos : Goos) (os : OSEnv)
    (cs : configStore) (p : String) (hp : p ≠ "") :
    (cs.SetConfigDir p).fs = some p
    ∧ (cs.SetConfigDir p).ConfigDirM goos os = (cs.SetConfigDir p, .ok p) := by
  refine ⟨rfl, ?_⟩
  simp [configStore.ConfigDirM, configStore.SetConfigDir, hp]

/-- C7 (witness): the amended theorem applied at a concrete store and
path. -/
theorem setConfigDir_then_configDir_witness :
    (demoStore.SetConfigDir "/p").fs = some "/p"
    ∧ (demoStore.SetConfigDir "/p").ConfigDirM .darwin demoOS
        = (demoStore.SetConfigDir "/p", .ok "/p") :=
  setConfigDir_then_configDir .darwin demoOS demoStore "/p" (by decide)

/-- C8: `WithDirType k` on a store whose directory is already
resolved/overridden yields a copy that reports kind `k` but keeps
every other field — slug, memoized directory, relative path, provider
and cached filesystem view — and whose `ConfigDir()` still returns the
directory memoized under the original kind instead of re-resolving
for `k`. -/
theorem withDirType_keeps_resolved_dir (goos : Goos) (os : OSEnv)
    (cs : configStore) (k : DirType) (h : cs.configDir ≠ "") :
    (cs.WithDirType k).dirType = k
    ∧ (cs.WithDirType k).configSlug = cs.configSlug
    ∧ (cs.WithDirType k).configDir = cs.configDir
    ∧ (cs.WithDirType k).relFilepath = cs.relFilepath
    ∧ (cs.WithDirType k).dirsProvider = cs.dirsProvider
    ∧ (cs.WithDirType k).fs = cs.fs
    ∧ (cs.WithDirType k).ConfigDirM goos os
        = (cs.WithDirType k, .ok cs.configDir) := by
  refine ⟨rfl, rfl, rfl, rfl, rfl, rfl, ?_⟩
  simp [configStore.ConfigDirM, configStore.WithDirType, h]

/-- C8 (witness): applied to a store overridden to `/d`, re-kinded to
the project kind. -/
theorem withDirType_keeps_resolved_dir_witness :
    ((demoStore.SetConfigDir "/d").WithDirType .projectConfig).dirType
        = .projectConfig
    ∧ ((demoStore.SetConfigDir "/d").WithDirType .projectConfig).ConfigDirM
        .darwin demoOS
        = ((demoStore.SetConfigDir "/d").WithDirType .projectConfig, .ok "/d") :=
  let h := withDirType_keeps_resolved_dir .darwin demoOS
    (demoStore.SetConfigDir "/d") .projectConfig (by decide)
  ⟨h.1, h.2.2.2.2.2.2⟩

/-- C10: `NewConfigStore` with the `Unspecified` kind panics (modelled
as `none`); with any other kind it succeeds, and a missing
`DirsProvider` is replaced by `DefaultDirsProvider()` while a supplied
one is kept. -/
theorem newConfigStore_unspecified_panics (goos : Goos) (os : OSEnv)
    (args : ConfigStoreArgs) :
    NewConfigStore goos os .unspecified args = none
    ∧ ∀ k, k ≠ DirType.unspecified →
        (NewConfigStore goos os k { args with DirsProvider := none }
            = some { configSlug := args.ConfigSlug, configDir := "",
                     relFilepath := args.RelFilepath, dirType := k,
                     dirsProvider := some (DefaultDirsProvider goos os),
                     fs := none }
          ∧ ∀ dp, NewConfigStore goos os k { args with DirsProvider := some dp }
              = some { configSlug := args.ConfigSlug, configDir := "",
                       relFilepath := args.RelFilepath, dirType := k,
                       dirsProvider := some dp, fs := none }) := by
  refine ⟨rfl, fun k hk => ⟨?_, fun dp => ?_⟩⟩ <;> simp [NewConfigStore, hk]

/-- C10 (witness): concrete construction for the CLI kind, without and
with an explicit provider. -/
theorem newConfigStore_unspecified_panics_witness :
    NewConfigStore .linux demoOS .unspecified
        { ConfigSlug := "acme", RelFilepath := "config.json",
          DirsProvider := none } = none
    ∧ NewConfigStore .linux demoOS .cliConfig
        { ConfigSlug := "acme", RelFilepath := "config.json",
          DirsProvider := none }
        = some { configSlug := "acme", configDir := "",
                 relFilepath := "config.json", dirType := .cliConfig,
                 dirsProvider := some (DefaultDirsProvider .linux demoOS),
                 fs := none } :=
  let h := newConfigStore_unspecified_panics .linux demoOS
    { ConfigSlug := "acme", RelFilepath := "config.json", DirsProvider := none }
  ⟨h.1, (h.2 .cliConfig (by decide)).1⟩

/-- C2: in the gather phase, a store whose file does not exist is
recorded as absent when its kind is ProjectConfig — no error, no file
written — while for every other kind the fresh zero value is
normalized, persisted as the store's new file content, and used as the
store's contribution. (`hz` is `dtx.IsZero`'s defining behavior on the
fresh value.) -/
theorem gather_missing_file {RC C : Type} (ops : RCOps RC C) (st : Store C)
    (hz : ops.isZero ops.zero = true) (hfile : st.file = none) :
    gatherOne ops .projectConfig st = (.ok none, st)
    ∧ ∀ (d : DirType) (rc₁ : RC) (c : C), d ≠ .projectConfig →
        ops.normalize ops.zero ⟨d, st.filepath⟩ = .ok rc₁ →
        ops.serialize rc₁ = .ok c →
        gatherOne ops d st = (.ok (some rc₁), { st with file := some c }) := by
  constructor
  · simp [gatherOne, loadConfigIfExists, hfile, hz]
  · intro d rc₁ c hd hn hs
    cases d with
    | projectConfig => exact absurd rfl hd
    | unspecified =>
      simp [gatherOne, ensureConfig, loadConfigIfExists, createConfig,
        hfile, hz, hn, hs]
    | appConfig =>
      simp [gatherOne, ensureConfig, loadConfigIfExists, createConfig,
        hfile, hz, hn, hs]
    | cliConfig =>
      simp [gatherOne, ensureConfig, loadConfigIfExists, createConfig,
        hfile, hz, hn, hs]

/-- C2 (witness): missing file handled for the project kind (absent,
nothing written) and the CLI kind (defaults created and persisted). -/
theorem gather_missing_file_witness :
    gatherOne demoOps .projectConfig { filepath := "/c", file := none }
        = (.ok none, { filepath := "/c", file := none })
    ∧ gatherOne demoOps .cliConfig { filepath := "/c", file := none }
        = (.ok (some demoZero), { filepath := "/c", file := some "|false" }) :=
  let h := gather_missing_file demoOps { filepath := "/c", file := none } rfl rfl
  ⟨h.1, h.2 .cliConfig demoZero "|false" (by decide) rfl rfl⟩

/-- C9: a store whose file exists but whose content loads and
normalizes to the zero value is handled like a missing file: absent
for the project kind, and for every other kind the loaded value is
dropped in favour of the (equal, by `hlaw`) fresh zero value, which is
normalized and persisted over the existing file. -/
theorem gather_zero_content {RC C : Type} (ops : RCOps RC C) (st : Store C)
    (c₀ : C) (hlaw : ∀ x, ops.isZero x = true → x = ops.zero)
    (hfile : st.file = some c₀) :
    (∀ rc₀ rc₁, ops.deserialize c₀ = .ok rc₀ →
        ops.normalize rc₀ ⟨.projectConfig, st.filepath⟩ = .ok rc₁ →
        ops.isZero rc₁ = true →
        gatherOne ops .projectConfig st = (.ok none, st))
    ∧ ∀ (d : DirType) (rc₀ rc₁ rc₂ : RC) (c₂ : C), d ≠ .projectConfig →
        ops.deserialize c₀ = .ok rc₀ →
        ops.normalize rc₀ ⟨d, st.filepath⟩ = .ok rc₁ →
        ops.isZero rc₁ = true →
        ops.normalize ops.zero ⟨d, st.filepath⟩ = .ok rc₂ →
        ops.serialize rc₂ = .ok c₂ →
        gatherOne ops d st = (.ok (some rc₂), { st with file := some c₂ }) := by
  constructor
  · intro rc₀ rc₁ hde hn hz
    simp [gatherOne, loadConfigIfExists, loadJSON, hfile, hde, hn, hz]
  · intro d rc₀ rc₁ rc₂ c₂ hd hde hn hz hn₂ hs
    have hrc₁ : rc₁ = ops.zero := hlaw rc₁ hz
    subst hrc₁
    cases d with
    | projectConfig => exact absurd rfl hd
    | unspecified =>
      simp [gatherOne, ensureConfig, loadConfigIfExists, loadJSON,
        createConfig, hfile, hde, hn, hz, hn₂, hs]
    | appConfig =>
      simp [gatherOne, ensureConfig, loadConfigIfExists, loadJSON,
        createConfig, hfile, hde, hn, hz, hn₂, hs]
    | cliConfig =>
      simp [gatherOne, ensureConfig, loadConfigIfExists, loadJSON,
        createConfig, hfile, hde, hn, hz, hn₂, hs]

/-- C9 (witness): a file whose content deserializes to the zero value,
handled for the project kind (absent) and the CLI kind (defaults
re-created, overwriting the file). -/
theorem gather_zero_content_witness :
    gatherOne demoOps .projectConfig { filepath := "/c", file := some "empty" }
        = (.ok none, { filepath := "/c", file := some "empty" })
    ∧ gatherOne demoOps .cliConfig { filepath := "/c", file := some "empty" }
        = (.ok (some demoZero), { filepath := "/c", file := some "|false" }) :=
  let h := gather_zero_content demoOps { filepath := "/c", file := some "empty" }
    "empty" demoIsZero_law rfl
  ⟨h.1 demoZero demoZero rfl rfl rfl,
   h.2 .cliConfig demoZero demoZero demoZero "|false" (by decide)
     rfl rfl rfl rfl rfl⟩

/-- C5: when every store's gather outcome is "absent", the load fails
with `ErrNotValidConfigDirsAvailable` (no configuration value is
produced), for any merge operation and kind list. -/
theorem loadRootConfig_no_contributors {RC C : Type} (ops : RCOps RC C)
    (merge : RC → RC → RC) (stores : List (DirType × Store C))
    (dts₀ : List DirType)
    (habs : ∀ p ∈ stores, (gatherOne ops p.1 p.2).1 = .ok (none : Option RC)) :
    (LoadRootConfig ops merge stores dts₀).1
      = .error .notValidConfigDirsAvailable := by
  obtain ⟨h₁, h₂⟩ := gather_absent_components ops stores habs
  simp [LoadRootConfig, h₁, combineErrs, mergeRootConfigs,
    findFirstContrib_none_of _ h₂]

/-- C5 (witness): a single absence-tolerant (project) store with no
file anywhere. -/
theorem loadRootConfig_no_contributors_witness :
    (LoadRootConfig demoOps demoMerge
        [(.projectConfig, { filepath := "/p", file := none })]
        [.projectConfig]).1
      = .error .notValidConfigDirsAvailable :=
  loadRootConfig_no_contributors demoOps demoMerge _ _ (by
    intro p hp
    simp only [List.mem_singleton] at hp
    subst hp
    rfl)

/-- C6: when exactly one store contributed, `mergeRootConfigs` returns
that value unchanged, and the result is the same for every merge
operation — the value type's `Merge` is never invoked. -/
theorem mergeRootConfigs_single_contributor {RC : Type}
    (rcMap : DirType → Option RC) (dirTypes : List DirType) (v : RC)
    (h : dirTypes.filterMap rcMap = [v]) :
    ∀ merge : RC → RC → RC,
      mergeRootConfigs merge rcMap dirTypes = .ok (some v) := by
  intro merge
  obtain ⟨rest, hf, -⟩ := findFirstContrib_of_filterMap rcMap dirTypes v [] h
  have hcnt : (dirTypes.filter fun t => (rcMap t).isSome).length = 1 := by
    rw [length_filter_isSome, h]
    rfl
  simp [mergeRootConfigs, hf, hcnt]

/-- C6 (witness): only the CLIConfig store contributes; the result is
its value unchanged, under the demo merge operation. -/
theorem mergeRootConfigs_single_contributor_witness :
    mergeRootConfigs demoMerge
        (fun t => if t = DirType.cliConfig
          then some { theme := "light", debug := false } else none)
        [.cliConfig, .projectConfig]
      = .ok (some { theme := "light", debug := false }) :=
  mergeRootConfigs_single_contributor _ _ _ (by decide) demoMerge

/-- C3: when at least one store's processing failed, every store is
still processed (the final store states are the per-store processing
results for the whole list), the load returns the one combined
aggregate error holding the per-store errors in iteration order — the
same for every merge operation, so the merge step is never attempted —
and each failing store's error is an entry of that aggregate. -/
theorem loadRootConfig_aggregates_failures {RC C : Type} (ops : RCOps RC C)
    (stores : List (DirType × Store C)) (dts₀ : List DirType)
    (hne : gatherErrs ops stores ≠ []) :
    (∀ merge : RC → RC → RC,
      LoadRootConfig ops merge stores dts₀
        = (.error (.combined (gatherErrs ops stores)),
           stores.map fun p => (p.1, (gatherOne ops p.1 p.2).2)))
    ∧ ∀ p ∈ stores, ∀ e, (gatherOne ops p.1 p.2).1 = .error e →
        e ∈ gatherErrs ops stores := by
  obtain ⟨h₁, h₂⟩ := gather_components ops stores
  constructor
  · intro merge
    have hc : combineErrs (gatherErrs ops stores)
        = some (.combined (gatherErrs ops stores)) := by
      cases he : gatherErrs ops stores with
      | nil => exact absurd he hne
      | cons a l => simp [combineErrs]
    simp [LoadRootConfig, h₁, h₂, hc]
  · intro p hp e he
    exact List.mem_filterMap.mpr ⟨p, hp, by simp [he]⟩

/-- C3 (witness): malformed CLIConfig content plus well-formed
ProjectConfig content — the project store is still processed, and the
aggregate holds a deserialization-class entry for the CLI store. -/
theorem loadRootConfig_aggregates_failures_witness :
    (LoadRootConfig demoOps demoMerge demoFailStores
        [.cliConfig, .projectConfig]
      = (.error (.combined [.failedToEnsureConfig "/cli/config.json"
            (.withFileContext "" (.failedToLoadJSON
              (.failedToUnmarshalConfigFile (.external "invalid JSON"))))]),
         [(.cliConfig, { filepath := "/cli/config.json",
                         file := some "garbage" }),
          (.projectConfig, { filepath := "/proj/config.json",
                             file := some "debug" })]))
    ∧ Err.isDeserializationFailure (.failedToEnsureConfig "/cli/config.json"
        (.withFileContext "" (.failedToLoadJSON
          (.failedToUnmarshalConfigFile (.external "invalid JSON"))))) = true :=
  have hne : gatherErrs demoOps demoFailStores ≠ [] := by
    have hl : (gatherErrs demoOps demoFailStores).length = 1 := rfl
    intro h
    rw [h] at hl
    exact absurd hl (by decide)
  ⟨(loadRootConfig_aggregates_failures demoOps demoFailStores
      [.cliConfig, .projectConfig] hne).1 demoMerge, rfl⟩

/-- C1: evaluating the merge phase at the spec's own Theme/Debug
example (CLIConfig contributes `{Theme: "light", Debug: false}`,
ProjectConfig `{Theme: "", Debug: true}`, precedence list
`[CLIConfig, ProjectConfig]`, merge rule "non-empty/non-zero receiver
field wins, else inherit" written per the README's documented
contract, which returns a new value and does not mutate the
receiver). The walk at `config_stores.go` line 181 does accumulate
`rc = rcMap[typ].Merge(rc) = {Theme: "light", Debug: true}`, but line
196 then returns `prc = rcMap[dirType]` — the ProjectConfig store's
stored, unmerged value `{Theme: "", Debug: true}` — discarding the
fold's accumulated value that the claim says is returned. -/
theorem mergeRootConfigs_drops_fold :
    mergeRootConfigs demoMerge demoMap [.cliConfig, .projectConfig]
        = .ok (some { theme := "", debug := true })
    ∧ demoMerge { theme := "", debug := true } { theme := "light", debug := false }
        = { theme := "light", debug := true }
    ∧ ({ theme := "", debug := true } : DemoConfig)
        ≠ { theme := "light", debug := true } :=
  ⟨rfl, rfl, by decide⟩

end CfgStore
